import Mathlib

/-!
Verification of the vector-db repository's text chunker
(`src/workflows/chunk-processor.ts`), Notion synchronization workflow
(`NotionSyncWorkflow.run`) and vector search handler (`src/vectors.ts`),
as shallow embeddings in Lean 4.

Conventions of the embedding:
* JavaScript strings are `List Char`; `.length` is list length.
* JavaScript numbers holding character offsets are `Int` (offsets such as
  `startOffset = adjustedEndOffset - chunkOverlap` can go negative).
* `step.do` of a Cloudflare workflow is modelled as direct sequential
  execution of the step body; external calls that can throw are modelled
  with `Except`/`Option` data supplied through an environment record.
* Fields the claims never mention and that depend on the wall clock or on
  `Math.random` (chunk ids, `processedAt`/`completedAt` timestamps, chunk
  metadata, page url metadata) are elided from the records.
* The splitting loop of `splitTextIntoChunks` is a JavaScript `while` loop;
  it is embedded fuel-indexed: `splitLoop` returns the list of chunks pushed
  within `fuel` iterations together with a flag that is `true` exactly when
  the loop exited (via its guard or its `break`) within that fuel.
  Divergence of the source loop is then the theorem that the flag is `false`
  for every fuel.
-/

namespace VectorDb

/-! ## Chunker: constants and parameter validation
Source: `src/workflows/chunk-processor.ts` lines 47-50, 110-148. -/

def DEFAULT_CHUNK_SIZE : Int := 1000
def DEFAULT_CHUNK_OVERLAP : Int := 100
def MIN_CHUNK_SIZE : Int := 100
def MAX_CHUNK_SIZE : Int := 5000

/-- `validateChunkSize` (lines 110-126).  The argument is `Option Int`:
`none` models an omitted `chunkSize`; JavaScript's `!chunkSize` is true for
`undefined` and for `0`, both mapped to the default. -/
def validateChunkSize : Option Int → Int
  | none => DEFAULT_CHUNK_SIZE
  | some s =>
    if s = 0 then DEFAULT_CHUNK_SIZE
    else if s < MIN_CHUNK_SIZE then MIN_CHUNK_SIZE
    else if s > MAX_CHUNK_SIZE then MAX_CHUNK_SIZE
    else s

/-- `validateChunkOverlap` (lines 131-148).  `!chunkOverlap` (omitted or `0`)
returns the default 100 *before* any clamping; otherwise the value is clamped
above by `Math.floor(chunkSize / 2)` and below by 0.  `chunkSize` here is
always the already-validated size, hence positive, so JavaScript's
`Math.floor(chunkSize / 2)` is integer division. -/
def validateChunkOverlap (chunkOverlap? : Option Int) (chunkSize : Int) : Int :=
  match chunkOverlap? with
  | none => DEFAULT_CHUNK_OVERLAP
  | some o =>
    if o = 0 then DEFAULT_CHUNK_OVERLAP
    else
      let maxOverlap := chunkSize / 2
      if o > maxOverlap then maxOverlap
      else if o < 0 then 0
      else o

/-! ## Chunker: text cleaning (`cleanText`, lines 212-218) -/

/-- `.replace(/\r\n/g, '\n')`: global leftmost non-overlapping replacement. -/
def replaceCRLF : List Char → List Char
  | [] => []
  | '\r' :: '\n' :: rest => '\n' :: replaceCRLF rest
  | c :: rest => c :: replaceCRLF rest

/-- What a maximal run of `n` consecutive newlines becomes under
`.replace(/\n{3,}/g, '\n\n')`: two newlines when `n ≥ 3`, else the run. -/
def newlineRunOut (n : Nat) : List Char :=
  List.replicate (if 3 ≤ n then 2 else n) '\n'

/-- Left-to-right scan for `.replace(/\n{3,}/g, '\n\n')`; `pending` counts
the newlines of the run currently being read. -/
def collapseNewlinesAux : Nat → List Char → List Char
  | pending, [] => newlineRunOut pending
  | pending, '\n' :: rest => collapseNewlinesAux (pending + 1) rest
  | pending, c :: rest => newlineRunOut pending ++ c :: collapseNewlinesAux 0 rest

/-- `.replace(/\n{3,}/g, '\n\n')`: every maximal run of three or more
newlines collapses to exactly two. -/
def collapseNewlines (t : List Char) : List Char :=
  collapseNewlinesAux 0 t

/-- The ASCII part of JavaScript's `String.prototype.trim` whitespace class
(space, tab, LF, CR, VT, FF).  The exotic Unicode members (NBSP, BOM, …) are
elided; no claim input involves them. -/
def isJsWhitespace (c : Char) : Bool :=
  c = ' ' || c = '\t' || c = '\n' || c = '\r' || c = '\x0b' || c = '\x0c'

/-- `String.prototype.trim`. -/
def trimWS (t : List Char) : List Char :=
  ((t.dropWhile isJsWhitespace).reverse.dropWhile isJsWhitespace).reverse

/-- `cleanText` (lines 212-218): normalize CRLF and CR to LF, collapse runs
of 3+ newlines to 2, trim. -/
def cleanText (t : List Char) : List Char :=
  trimWS (collapseNewlines ((replaceCRLF t).map (fun c => if c = '\r' then '\n' else c)))

/-! ## Chunker: word boundary search (`findWordBoundary`, lines 223-247) -/

/-- `text[i]` for an `Int` index: `undefined` (here `none`) when out of
range, as in JavaScript. -/
def charAt? (t : List Char) (i : Int) : Option Char :=
  if 0 ≤ i then t[i.toNat]? else none

/-- One of the downward scan loops of `findWordBoundary`:
`for (let i = position; i > lowerBound; i--) if (pred(text[i])) return i + 1`.
`steps` is the iteration count `max 0 (position - lowerBound)`; the scan
visits `position, position-1, …, lowerBound+1` and returns the first index
whose character satisfies `pred`. -/
def scanBack (t : List Char) (pred : Char → Bool) : Int → Nat → Option Int
  | _, 0 => none
  | i, steps + 1 => if (charAt? t i).any pred then some i else scanBack t pred (i - 1) steps

/-- The sentence-terminating punctuation list of line 229. -/
def isPunctuation (c : Char) : Bool :=
  c = '。' || c = '！' || c = '？' || c = '\n' || c = '.' || c = '!' || c = '?'

/-- `findWordBoundary` (lines 223-247): at or past the end return the length;
otherwise look back up to 50 characters for punctuation, then up to 20 for a
space, returning one past the found index; otherwise the position stands. -/
def findWordBoundary (t : List Char) (position : Int) : Int :=
  let len : Int := t.length
  if position ≥ len then len
  else
    match scanBack t isPunctuation position (position - max 0 (position - 50)).toNat with
    | some i => i + 1
    | none =>
      match scanBack t (fun c => c = ' ') position (position - max 0 (position - 20)).toNat with
      | some i => i + 1
      | none => position

/-! ## Chunker: splitting loop (`splitTextIntoChunks`, lines 153-207) -/

/-- `String.prototype.substring(a, b)`: both arguments clamped into
`[0, length]`, then swapped if needed. -/
def jsSubstring (t : List Char) (a b : Int) : List Char :=
  let len : Int := t.length
  let a' := min (max a 0) len
  let b' := min (max b 0) len
  (t.take (max a' b').toNat).drop (min a' b').toNat

/-- A produced chunk.  `id` (built from `Date.now()` and `Math.random()`)
and `metadata` are elided: no claim mentions them. -/
structure TextChunk where
  index : Nat
  text : List Char
  startOffset : Int
  endOffset : Int
deriving DecidableEq

/-- One iteration of the `while` loop body (lines 170-203): compute the raw
cut, realign it, push the chunk when its trimmed text is nonempty, and
return the next `startOffset = adjustedEndOffset - chunkOverlap`. -/
def splitIter (t : List Char) (chunkSize chunkOverlap start : Int) (idx : Nat) :
    Option TextChunk × Int × Nat :=
  let endOffset := min (start + chunkSize) (t.length : Int)
  let adjustedEndOffset := findWordBoundary t endOffset
  let chunkText := jsSubstring t start adjustedEndOffset
  if 0 < (trimWS chunkText).length then
    (some ⟨idx, chunkText, start, adjustedEndOffset⟩, adjustedEndOffset - chunkOverlap, idx + 1)
  else
    (none, adjustedEndOffset - chunkOverlap, idx)

/-- The next `startOffset` computed by one iteration from `start`; the
loop's control state. -/
def nextStart (t : List Char) (chunkSize chunkOverlap start : Int) : Int :=
  findWordBoundary t (min (start + chunkSize) (t.length : Int)) - chunkOverlap

/-- The `while (startOffset < cleanText.length)` loop, fuel-indexed.
Returns the chunks pushed within `fuel` iterations and `true` iff the loop
exited within that fuel — via the guard or via the
`if (startOffset >= cleanText.length - 1) break` check, which runs after the
`startOffset` update at the end of each iteration. -/
def splitLoop (t : List Char) (chunkSize chunkOverlap : Int) :
    Nat → Int → Nat → List TextChunk × Bool
  | 0, _, _ => ([], false)
  | fuel + 1, start, idx =>
    if start < (t.length : Int) then
      let iter := splitIter t chunkSize chunkOverlap start idx
      let emitted := iter.1.toList
      if iter.2.1 ≥ (t.length : Int) - 1 then (emitted, true)
      else
        let rest := splitLoop t chunkSize chunkOverlap fuel iter.2.1 iter.2.2
        (emitted ++ rest.1, rest.2)
    else ([], true)

/-- `splitTextIntoChunks` (lines 153-207): clean the text, return `[]` at
once when the cleaned text is empty, otherwise run the splitting loop from
`startOffset = 0`, `chunkIndex = 0`. -/
def splitTextIntoChunks (fuel : Nat) (text : List Char) (chunkSize chunkOverlap : Int) :
    List TextChunk × Bool :=
  let ct := cleanText text
  if ct.length = 0 then ([], true)
  else splitLoop ct chunkSize chunkOverlap fuel 0 0

/-! ## Chunker: statistics and the `execute` entry point (lines 55-105, 279-296) -/

/-- `Math.round(total / count)` for natural `total`, positive `count`:
round half away from zero, i.e. `⌊(total/count) + 1/2⌋`. -/
def jsRoundDiv (total count : Nat) : Nat := (2 * total + count) / (2 * count)

/-- The `averageSize` field of `calculateStatistics` (lines 279-296). -/
def averageChunkSize (chunks : List TextChunk) : Nat :=
  if chunks.length = 0 then 0
  else jsRoundDiv (chunks.map (fun c => c.text.length)).sum chunks.length

/-- The chunk-processing result; `minSize`/`maxSize` of the statistics are
discarded by `execute` and elided here. -/
structure ChunkProcessingResult where
  chunks : List TextChunk
  totalChunks : Nat
  averageChunkSize : Nat
deriving DecidableEq

/-- `ChunkProcessor.execute` (lines 55-105): validate the parameters, split,
and assemble the result.  `enrichChunks` only rewrites chunk metadata, which
is elided, so it is the identity here.  The completion flag of the loop is
carried through: `(r, false)` means the source never returns. -/
def chunkExecute (fuel : Nat) (text : List Char)
    (chunkSizeParam chunkOverlapParam : Option Int) : ChunkProcessingResult × Bool :=
  let chunkSize := validateChunkSize chunkSizeParam
  let chunkOverlap := validateChunkOverlap chunkOverlapParam chunkSize
  let split := splitTextIntoChunks fuel text chunkSize chunkOverlap
  (⟨split.1, split.1.length, averageChunkSize split.1⟩, split.2)

/-- The spec's property "chunk start offsets strictly increase", as a
decidable predicate on a produced chunk list (each start below its
successor's). -/
def strictlyIncreasingStarts : List TextChunk → Bool
  | [] => true
  | [_] => true
  | a :: b :: rest =>
    decide (a.startOffset < b.startOffset) && strictlyIncreasingStarts (b :: rest)

/-! ## Notion synchronization workflow (`NotionSyncWorkflow.run`)

Source: the workflow file imported from `cloudflare:workers` (provided as
`src/unnamed/part_000`).  Rich-text items are `Option String`
(`rt.plain_text`, which `rt.plain_text || ''` defaults to the empty
string); `select?.name` and `multi_select` are likewise `Option`-valued. -/

/-- `items.map(rt => rt.plain_text || '').join('')`. -/
def joinPlainText (items : List (Option String)) : String :=
  String.join (items.map (fun rt => rt.getD ""))

/-- A Notion page property, by its `type` tag.  Only the four text-bearing
types of line 102 are distinguished; every other type is `other`. -/
inductive NProp
  | title (rts : List (Option String))
  | richText (rts : List (Option String))
  | select (name : Option String)
  | multiSelect (names : Option (List (Option String)))
  | other
deriving DecidableEq

/-- The text extracted from a property by lines 103-115, or `none` when the
property's type is not in `['title', 'rich_text', 'select', 'multi_select']`.
`multi_select?.map(s => s.name).join(', ')` turns an absent name into the
empty string, as `Array.prototype.join` does. -/
def propExtractText : NProp → Option String
  | .title rts => some (joinPlainText rts)
  | .richText rts => some (joinPlainText rts)
  | .select name => some (name.getD "")
  | .multiSelect names =>
    some (String.intercalate ", " ((names.getD []).map (fun s => s.getD "")))
  | .other => none

/-- A fetched Notion page: its properties in insertion order
(`Object.entries`).  The `url` (used only inside elided vector metadata) is
dropped. -/
structure NPage where
  properties : List (String × NProp)
deriving DecidableEq

/-- The `propertiesToVectorize` list built by lines 97-121: text-bearing
properties whose extracted text is truthy (non-empty). -/
def propsToVectorize (props : List (String × NProp)) : List (String × String) :=
  props.filterMap (fun nv =>
    match propExtractText nv.2 with
    | some t => if t = "" then none else some (nv.1, t)
    | none => none)

/-- Lines 51-53: `Object.values(page.properties).find(prop => prop.type ===
'title')`, returning the rich-text payload of the first title property. -/
def findTitleProp (props : List (String × NProp)) : Option (List (Option String)) :=
  (props.map Prod.snd).findSome? (fun p =>
    match p with
    | .title rts => some rts
    | _ => none)

/-- Lines 50-90: the title step contributes one vector exactly when a title
property exists and its joined plain text is non-empty. -/
def titleContribution (page : NPage) : Nat :=
  match findTitleProp page.properties with
  | none => 0
  | some rts => if joinPlainText rts = "" then 0 else 1

/-- A Notion content block.  `content` models `block[block.type]`
(`none` = absent/falsy); within it, `rich_text` and `cells` are the two
fields `extractPlainTextFromBlock` reads. -/
structure NBlockContent where
  rich_text : Option (List (Option String))
  cells : Option (List (List (Option String)))
deriving DecidableEq

structure NBlock where
  id : String
  type : String
  content : Option NBlockContent
deriving DecidableEq

/-- The rich-text block types of lines 264-268. -/
def richTextTypes : List String :=
  ["paragraph", "heading_1", "heading_2", "heading_3",
   "bulleted_list_item", "numbered_list_item", "to_do",
   "toggle", "quote", "callout"]

/-- `extractPlainTextFromBlock` (lines 260-291): sequential checks — a
rich-text type with a `rich_text` field, then `code`, then `table_row`
(cells joined by a space); otherwise the empty string. -/
def extractPlainTextFromBlock (b : NBlock) : String :=
  match b.content with
  | none => ""
  | some c =>
    match (if richTextTypes.contains b.type then c.rich_text else none) with
    | some rts => joinPlainText rts
    | none =>
      match (if b.type = "code" then c.rich_text else none) with
      | some rts => joinPlainText rts
      | none =>
        match (if b.type = "table_row" then c.cells else none) with
        | some cells => String.intercalate " " (cells.map joinPlainText)
        | none => ""

/-- Line 174: `if (plainText && plainText.length > 10)` — the block is
embedded iff its extracted text is truthy and longer than 10 characters. -/
def blockEmbeddable (b : NBlock) : Bool :=
  let t := extractPlainTextFromBlock b
  !(t = "") && decide (10 < t.length)

/-- The blocks the blocks-stage embeds, in order (lines 171-199). -/
def blocksToVectorize (blocks : List NBlock) : List NBlock :=
  blocks.filter blockEmbeddable

/-- Workflow parameters (the zod schema of lines 9-15, after parsing).
`notionToken` only configures the elided service client. -/
structure SyncParams where
  pageId : String
  includeBlocks : Bool
  includeProperties : Bool
  namespace? : Option String
deriving DecidableEq

/-- The `NotionSyncResult` of lines 19-27; `completedAt` (wall clock) is
elided. -/
structure SyncResult where
  success : Bool
  pageId : String
  blocksProcessed : Nat
  propertiesProcessed : Nat
  vectorsCreated : Nat
  error : Option String
deriving DecidableEq

/-- The externally visible environment of one run: what
`fetchPageFromNotion` and `fetchBlocksFromNotion` return.  `.error`
models the call throwing; `.ok none` models `fetchPageFromNotion`
resolving to a falsy page (line 42).  Persistence calls (`savePage`,
`savePageProperties`, `saveBlocks`, vector creation, relation and job
records) are modelled as succeeding. -/
structure SyncEnv where
  fetchPage : Except String (Option NPage)
  fetchBlocks : Except String (List NBlock)

/-- The run outcome: the returned result plus the persisted side effects
the claims mention — the `contentType` of each `saveVectorRelation` call in
order, and how many failed / completed `notionSyncJobs` rows were written. -/
structure SyncOutcome where
  result : SyncResult
  relationKinds : List String
  errorRecords : Nat
  completedRecords : Nat
deriving DecidableEq

/-- The `catch` branch (lines 235-257): record one failed job row, then
return `success: false` with the counters accumulated so far. -/
def syncFail (p : SyncParams) (msg : String) (blocksProcessed propertiesProcessed
    vectorsCreated : Nat) (relationKinds : List String) : SyncOutcome :=
  { result := { success := false, pageId := p.pageId, blocksProcessed,
                propertiesProcessed, vectorsCreated, error := some msg },
    relationKinds, errorRecords := 1, completedRecords := 0 }

/-- `NotionSyncWorkflow.run` (lines 30-258), one sequential execution:
fetch-and-save the page (throwing `Page <id> not found` on a falsy page),
vectorize the title, optionally process properties
(`propertiesProcessed = Object.keys(page.properties).length`, one vector and
one relation per entry of `propsToVectorize`), optionally fetch and process
blocks (`blocksProcessed = blocks.length`, one vector and one relation per
embeddable block), then record a completed job row. -/
def notionSyncRun (env : SyncEnv) (p : SyncParams) : SyncOutcome :=
  match env.fetchPage with
  | .error e => syncFail p e 0 0 0 []
  | .ok none => syncFail p ("Page " ++ p.pageId ++ " not found") 0 0 0 []
  | .ok (some page) =>
    let titleVec := titleContribution page
    let titleRels := if titleVec = 0 then [] else ["page_title"]
    let propsPart :=
      if p.includeProperties then
        let tv := propsToVectorize page.properties
        (page.properties.length, tv.length, tv.map (fun _ => "property"))
      else (0, 0, [])
    if p.includeBlocks then
      match env.fetchBlocks with
      | .error e =>
        syncFail p e 0 propsPart.1 (titleVec + propsPart.2.1)
          (titleRels ++ propsPart.2.2)
      | .ok blocks =>
        let bv := blocksToVectorize blocks
        { result := { success := true, pageId := p.pageId,
                      blocksProcessed := blocks.length,
                      propertiesProcessed := propsPart.1,
                      vectorsCreated := titleVec + propsPart.2.1 + bv.length,
                      error := none },
          relationKinds := titleRels ++ propsPart.2.2 ++ bv.map (fun _ => "block"),
          errorRecords := 0, completedRecords := 1 }
    else
      { result := { success := true, pageId := p.pageId,
                    blocksProcessed := 0,
                    propertiesProcessed := propsPart.1,
                    vectorsCreated := titleVec + propsPart.2.1,
                    error := none },
        relationKinds := titleRels ++ propsPart.2.2,
        errorRecords := 0, completedRecords := 1 }

/-- Concrete sample page for witnesses: a non-empty title, a select, and a
non-text-bearing property. -/
def samplePage : NPage :=
  ⟨[("Name", .title [some "Doc"]), ("Tag", .select (some "x")), ("Due", .other)]⟩

/-- Concrete sample page without any title-type property. -/
def samplePageNoTitle : NPage := ⟨[("Tag", .select (some "x"))]⟩

/-- Concrete sample blocks: one embeddable paragraph, one too-short
paragraph, one block with no extractable text. -/
def sampleBlocks : List NBlock :=
  [⟨"b1", "paragraph", some ⟨some [some "This is long enough text."], none⟩⟩,
   ⟨"b2", "paragraph", some ⟨some [some "short"], none⟩⟩,
   ⟨"b3", "divider", some ⟨none, none⟩⟩]

/-! ## Vector search handler (`searchVectors`, `src/vectors.ts`)

Vector components are opaque to the handler; they are modelled as `Int`. -/

/-- A search request body as relevant to `SearchSchema` (lines 16-21).
`topK` is `none` when omitted.  The non-integer/NaN cases of `z.number()`
are outside this integer model; `filter` is carried through opaquely. -/
structure SearchBody where
  vector : Option (List Int)
  text : Option String
  topK : Option Int
  filter : Option (List (String × String))
deriving DecidableEq

/-- `SearchSchema.parse` on `topK`: accept an omitted value as the default
10, accept integers in `[1, 100]`, throw a `ZodError` otherwise
(`z.number().int().min(1).max(100).default(10)`). -/
def parseTopK : Option Int → Except String Int
  | none => .ok 10
  | some k =>
    if 1 ≤ k ∧ k ≤ 100 then .ok k
    else .error "Number must be between 1 and 100"

/-- The handler's environment: `c.env.AI.run` as a function from the search
text to `result.data?.[0]` (`none` when absent). -/
structure SearchEnv where
  embed : String → Option (List Int)

/-- The response value, by status and error message; `ok` carries the
query's match payload opaquely represented by the issued query. -/
inductive SearchResp
  | ok
  | badRequest (error : String)
  | serverError (error : String)
deriving DecidableEq

/-- One `VECTORIZE_INDEX.query(queryVector, {topK, filter})` call. -/
structure QueryCall where
  queryVector : List Int
  topK : Int
  filter : Option (List (String × String))
deriving DecidableEq

/-- `searchVectors` (lines 108-153): parse the body (a `ZodError` yields a
400 `Invalid request: …`); use `parsed.vector` if truthy, else embed
`parsed.text` if truthy (an empty string is falsy), else return 400
`Either vector or text must be provided`; a missing embedding throws,
caught as a 500.  Returns the response together with the list of index
queries issued. -/
def searchVectors (env : SearchEnv) (body : SearchBody) : SearchResp × List QueryCall :=
  match parseTopK body.topK with
  | .error m => (.badRequest ("Invalid request: " ++ m), [])
  | .ok topK =>
    match body.vector with
    | some v => (.ok, [{ queryVector := v, topK, filter := body.filter }])
    | none =>
      match body.text with
      | some t =>
        if t = "" then (.badRequest "Either vector or text must be provided", [])
        else
          match env.embed t with
          | some v => (.ok, [{ queryVector := v, topK, filter := body.filter }])
          | none => (.serverError "Failed to generate search embedding", [])
      | none => (.badRequest "Either vector or text must be provided", [])

/-! ## Chunker lemmas -/

/-- Both branches of `splitIter` compute the same next `startOffset`. -/
theorem splitIter_next (t : List Char) (S O s : Int) (idx : Nat) :
    (splitIter t S O s idx).2.1 = nextStart t S O s := by
  simp only [splitIter, nextStart]
  split <;> rfl

/-- Unfolding one loop iteration that neither exits by the guard nor by the
`break`. -/
theorem splitLoop_succ_snd (t : List Char) (S O : Int) (n : Nat) (s : Int) (idx : Nat)
    (hg : s < (t.length : Int))
    (hb : ¬ (splitIter t S O s idx).2.1 ≥ (t.length : Int) - 1) :
    (splitLoop t S O (n + 1) s idx).2 =
      (splitLoop t S O n (splitIter t S O s idx).2.1 (splitIter t S O s idx).2.2).2 := by
  simp only [splitLoop, if_pos hg, if_neg hb]

/-- If one iteration maps `startOffset` to itself without exiting, the loop
never finishes, whatever the fuel. -/
theorem splitLoop_fixpoint_not_finished (t : List Char) (S O s : Int)
    (hg : s < (t.length : Int)) (hfix : nextStart t S O s = s)
    (hb : ¬ s ≥ (t.length : Int) - 1) :
    ∀ fuel idx, (splitLoop t S O fuel s idx).2 = false := by
  intro fuel
  induction fuel with
  | zero => intro idx; rfl
  | succ n ih =>
    intro idx
    have h1 : (splitIter t S O s idx).2.1 = s := by rw [splitIter_next, hfix]
    rw [splitLoop_succ_snd t S O n s idx hg (by rw [h1]; exact hb), h1]
    exact ih _

/-! ## Claims C1 and C4: the splitting loop does not terminate -/

/-- C1: the claim states that for every cleaned input text and every
validated chunkSize/chunkOverlap the splitting loop terminates, each
iteration making forward progress.  The code violates this: already with
both parameters omitted (validated to chunkSize 1000, default overlap 100)
on the text "hello world", the first iteration cuts at the end of the text
and sets `startOffset = 11 - 100 = -89`; every later iteration recomputes
`startOffset = -89`, and the break `startOffset >= len - 1` never fires, so
the loop runs forever (re-pushing the same chunk).  This theorem evaluates
the embedded code at that input: no amount of fuel completes the loop. -/
theorem chunkExecute_diverges_on_defaults (fuel : Nat) :
    (chunkExecute fuel "hello world".toList none none).2 = false := by
  match fuel with
  | 0 => rfl
  | (n : Nat) + 1 =>
    show (splitLoop (cleanText "hello world".toList) 1000 100 (n + 1) 0 0).2 = false
    rw [splitLoop_succ_snd _ _ _ _ _ _ (by decide) (by decide)]
    have h1 : (splitIter (cleanText "hello world".toList) 1000 100 0 0).2.1 = -89 := by
      decide
    have h2 : (splitIter (cleanText "hello world".toList) 1000 100 0 0).2.2 = 1 := by
      decide
    rw [h1, h2]
    exact splitLoop_fixpoint_not_finished _ _ _ _ (by decide) (by decide) (by decide) n 1

/-- C4: the claim states that chunking "0123456789" repeated 10 times with
chunkSize=20 (validated up to the minimum 100) and chunkOverlap=5 produces
more than one chunk with adjacent chunks overlapping.  The code never
returns on this input: the first iteration cuts at offset 100 (the end) and
sets `startOffset = 95`; from then on every iteration recomputes
`findWordBoundary` at the end of the text and `startOffset = 100 - 5 = 95`,
while the break needs `startOffset >= 99`.  The repository's own test
("should handle chunk overlap") expects this exact call to return.  This
theorem evaluates the embedded code at that input: no fuel completes the
loop. -/
theorem chunkExecute_diverges_on_overlap_test (fuel : Nat) :
    (chunkExecute fuel (String.join (List.replicate 10 "0123456789")).toList
      (some 20) (some 5)).2 = false := by
  match fuel with
  | 0 => rfl
  | (n : Nat) + 1 =>
    show (splitLoop (cleanText (String.join (List.replicate 10 "0123456789")).toList)
      100 5 (n + 1) 0 0).2 = false
    rw [splitLoop_succ_snd _ _ _ _ _ _ (by decide) (by decide)]
    have h1 : (splitIter (cleanText (String.join (List.replicate 10 "0123456789")).toList)
        100 5 0 0).2.1 = 95 := by decide
    have h2 : (splitIter (cleanText (String.join (List.replicate 10 "0123456789")).toList)
        100 5 0 0).2.2 = 1 := by decide
    rw [h1, h2]
    exact splitLoop_fixpoint_not_finished _ _ _ _ (by decide) (by decide) (by decide) n 1

/-! ## Claim C2: overlap validation -/

/-- C2 counterexample: the claim says every chunkOverlap argument, the
omitted case included, is validated into `[0, ⌊chunkSize/2⌋]`.  False: with
chunkSize 100 (the validated minimum) and the overlap omitted,
`validateChunkOverlap` returns the default 100, which exceeds
`⌊100/2⌋ = 50` — the `!chunkOverlap` check returns the default before any
clamping. -/
theorem validateChunkOverlap_omitted_exceeds_half :
    validateChunkOverlap none (validateChunkSize (some 100)) = 100 ∧
      ¬ validateChunkOverlap none (validateChunkSize (some 100)) ≤
          validateChunkSize (some 100) / 2 := by decide

/-- C2 amended: for every *provided, non-zero* chunkOverlap the overlap
actually used lies in `[0, ⌊chunkSize/2⌋]` (values above the bound are
clamped down, negative values to 0); but when chunkOverlap is omitted or 0
the default 100 is returned unclamped, exceeding `⌊chunkSize/2⌋` whenever
the validated chunkSize is below 200. -/
theorem validateChunkOverlap_clamps_provided_values (S o : Int)
    (hS : MIN_CHUNK_SIZE ≤ S) (ho : o ≠ 0) :
    (0 ≤ validateChunkOverlap (some o) S ∧ validateChunkOverlap (some o) S ≤ S / 2) ∧
      validateChunkOverlap none S = DEFAULT_CHUNK_OVERLAP ∧
      validateChunkOverlap (some 0) S = DEFAULT_CHUNK_OVERLAP := by
  refine ⟨?_, rfl, by simp [validateChunkOverlap]⟩
  unfold MIN_CHUNK_SIZE at hS
  simp only [validateChunkOverlap]
  rw [if_neg ho]
  split
  · constructor <;> omega
  · split
    · constructor <;> omega
    · constructor <;> omega

/-- Witness for the C2 amended theorem at chunkSize 100, overlap 60 (the
repository test's own inputs: clamped to 50). -/
theorem validateChunkOverlap_clamps_provided_values_witness :
    ((0 ≤ validateChunkOverlap (some 60) 100 ∧
        validateChunkOverlap (some 60) 100 ≤ 100 / 2) ∧
      validateChunkOverlap none 100 = DEFAULT_CHUNK_OVERLAP ∧
      validateChunkOverlap (some 0) 100 = DEFAULT_CHUNK_OVERLAP) :=
  validateChunkOverlap_clamps_provided_values 100 60 (by decide) (by decide)

/-! ## Claim C3: chunk length bound and start offsets -/

/-- C3 counterexample: the claim says for every chunkSize `S` and overlap
`O ∈ [0, ⌊S/2⌋]` the start offsets of successive emitted chunks strictly
increase.  False: with `S = 100`, `O = 5` on "hello world" the loop (which
never exits, see C1/C4) emits within its first three iterations chunks with
start offsets `0, 6, 6` — the cut is pinned at the end of the text and the
chunk at offset 6 is re-emitted forever. -/
theorem chunk_starts_not_strictly_increasing :
    (0 ≤ (5 : Int) ∧ (5 : Int) ≤ 100 / 2) ∧
      ((splitTextIntoChunks 3 "hello world".toList 100 5).1.map
          TextChunk.startOffset = [0, 6, 6]) ∧
      strictlyIncreasingStarts (splitTextIntoChunks 3 "hello world".toList 100 5).1
        = false := by decide

/-- A successful backward scan lands in `(i - k, i]`. -/
theorem scanBack_bounds (t : List Char) (pred : Char → Bool) :
    ∀ (k : Nat) (i j : Int), scanBack t pred i k = some j → i - (k : Int) < j ∧ j ≤ i := by
  intro k
  induction k with
  | zero => intro i j h; simp [scanBack] at h
  | succ n ih =>
    intro i j h
    unfold scanBack at h
    split at h
    · cases h with
      | refl => constructor <;> omega
    · obtain ⟨h1, h2⟩ := ih (i - 1) j h
      constructor <;> omega

/-- Below the end of the text, `findWordBoundary` returns at most one past
the requested position (the punctuation check looks at `text[position]`
itself and returns `position + 1` on a hit). -/
theorem findWordBoundary_le (t : List Char) (p : Int) (h : p < (t.length : Int)) :
    findWordBoundary t p ≤ p + 1 := by
  simp only [findWordBoundary]
  rw [if_neg (not_le.mpr h)]
  split
  · next i heq => have := scanBack_bounds t isPunctuation _ _ _ heq; omega
  · split
    · next i heq => have := scanBack_bounds t (fun c => c = ' ') _ _ _ heq; omega
    · omega

/-- Below the end of the text, `findWordBoundary` looks back at most 50
characters (punctuation window 50, space window 20, else the raw cut). -/
theorem findWordBoundary_lower (t : List Char) (p : Int) (h : p < (t.length : Int)) :
    p - 49 ≤ findWordBoundary t p := by
  simp only [findWordBoundary]
  rw [if_neg (not_le.mpr h)]
  split
  · next i heq =>
    have hb := scanBack_bounds t isPunctuation _ _ _ heq
    have hsteps : ((p - max 0 (p - 50)).toNat : Int) ≤ 50 := by omega
    omega
  · split
    · next i heq =>
      have hb := scanBack_bounds t (fun c => c = ' ') _ _ _ heq
      have hsteps : ((p - max 0 (p - 20)).toNat : Int) ≤ 20 := by omega
      omega
    · omega

/-- At or past the end of the text, `findWordBoundary` returns the length. -/
theorem findWordBoundary_at_end (t : List Char) (p : Int) (h : (t.length : Int) ≤ p) :
    findWordBoundary t p = (t.length : Int) := by
  simp only [findWordBoundary]
  rw [if_pos h]

/-- The exact length of a JavaScript `substring`: the width of the interval
between the two clamped arguments. -/
theorem jsSubstring_length (t : List Char) (a b : Int) :
    ((jsSubstring t a b).length : Int) =
      max (min (max a 0) (t.length : Int)) (min (max b 0) (t.length : Int)) -
        min (min (max a 0) (t.length : Int)) (min (max b 0) (t.length : Int)) := by
  simp only [jsSubstring, List.length_drop, List.length_take]
  omega

/-- Any chunk pushed by one loop iteration from a guard-satisfying
`startOffset` has raw text length at most `chunkSize + 50` (in fact at most
`chunkSize + 1`). -/
theorem splitIter_chunk_length (t : List Char) (S O s : Int) (idx : Nat)
    (hS : 100 ≤ S) (hg : s < (t.length : Int)) :
    ∀ c ∈ (splitIter t S O s idx).1.toList, (c.text.length : Int) ≤ S + 50 := by
  have hlen : ((jsSubstring t s
      (findWordBoundary t (min (s + S) (t.length : Int)))).length : Int) ≤ S + 50 := by
    rcases le_or_lt (t.length : Int) (min (s + S) (t.length : Int)) with hple | hplt
    · have hfwb := findWordBoundary_at_end t _ hple
      have hjs := jsSubstring_length t s (findWordBoundary t (min (s + S) (t.length : Int)))
      omega
    · have h1 := findWordBoundary_le t _ hplt
      have h2 := findWordBoundary_lower t _ hplt
      have hjs := jsSubstring_length t s (findWordBoundary t (min (s + S) (t.length : Int)))
      omega
  intro c hc
  simp only [splitIter] at hc
  split at hc
  · simp only [Option.toList, List.mem_singleton] at hc
    subst hc
    exact hlen
  · simp [Option.toList] at hc

/-- Every chunk pushed by the splitting loop, with any fuel and from any
state, has raw text length at most `chunkSize + 50`. -/
theorem splitLoop_chunk_length (t : List Char) (S O : Int) (hS : 100 ≤ S) :
    ∀ (fuel : Nat) (s : Int) (idx : Nat) (c : TextChunk),
      c ∈ (splitLoop t S O fuel s idx).1 → (c.text.length : Int) ≤ S + 50 := by
  intro fuel
  induction fuel with
  | zero => intro s idx c hc; simp [splitLoop] at hc
  | succ n ih =>
    intro s idx c hc
    simp only [splitLoop] at hc
    by_cases hg : s < (t.length : Int)
    · rw [if_pos hg] at hc
      split at hc
      · exact splitIter_chunk_length t S O s idx hS hg c hc
      · rcases List.mem_append.mp hc with hmem | hmem
        · exact splitIter_chunk_length t S O s idx hS hg c hmem
        · exact ih _ _ c hmem
    · rw [if_neg hg] at hc
      simp at hc

/-! ## Claim C3 (amended): chunk length bound -/

/-- C3 amended: for every chunkSize `S` in the validated range and overlap
`O ∈ [0, ⌊S/2⌋]`, every chunk the splitting loop emits (within any fuel)
has raw text length at most `S + 50`.  The second half of the original
claim — strictly increasing start offsets — is refuted by
`chunk_starts_not_strictly_increasing`: once the raw cut reaches the end of
the text the loop re-emits a chunk with the same start offset forever. -/
theorem chunk_raw_length_bounded (fuel : Nat) (text : List Char) (S O : Int)
    (hS : MIN_CHUNK_SIZE ≤ S) (hO0 : 0 ≤ O) (hO2 : O ≤ S / 2) :
    ∀ c ∈ (splitTextIntoChunks fuel text S O).1, (c.text.length : Int) ≤ S + 50 := by
  intro c hc
  simp only [splitTextIntoChunks] at hc
  split at hc
  · simp at hc
  · exact splitLoop_chunk_length (cleanText text) S O hS fuel 0 0 c hc

/-- Witness for the C3 amended theorem: the single chunk produced from
"hello world" with chunkSize 100, overlap 0 is within the bound. -/
theorem chunk_raw_length_bounded_witness :
    MIN_CHUNK_SIZE ≤ (100 : Int) ∧ 0 ≤ (0 : Int) ∧ (0 : Int) ≤ 100 / 2 ∧
      (((⟨0, "hello world".toList, 0, 11⟩ : TextChunk).text.length : Int) ≤ 100 + 50) :=
  ⟨by decide, by decide, by decide,
    chunk_raw_length_bounded 2 "hello world".toList 100 0 (by decide) (by decide)
      (by decide) ⟨0, "hello world".toList, 0, 11⟩ (by decide)⟩

/-! ## Claim C5: empty text -/

/-- C5: chunking a text whose cleaned form is empty yields no chunks,
`totalChunks = 0` and `averageChunkSize = 0` (and the run terminates),
whatever the parameters. -/
theorem chunkExecute_empty_text (fuel : Nat) (text : List Char)
    (chunkSizeParam chunkOverlapParam : Option Int) (h : cleanText text = []) :
    chunkExecute fuel text chunkSizeParam chunkOverlapParam = (⟨[], 0, 0⟩, true) := by
  simp [chunkExecute, splitTextIntoChunks, h, averageChunkSize]

/-- Witness for C5 at the whitespace-only text `"  \n "` with default
parameters. -/
theorem chunkExecute_empty_text_witness :
    cleanText "  \n ".toList = [] ∧
      chunkExecute 5 "  \n ".toList none none = (⟨[], 0, 0⟩, true) :=
  ⟨by decide, chunkExecute_empty_text 5 _ none none (by decide)⟩

/-! ## Claims C6-C9: the synchronization workflow -/

/-- C6: when a pipeline step throws, the run returns `success: false` with
the triggering message, the failing stage's counter stays at zero while
counters of earlier stages keep their values, no completed job row is
written, and the error-record stage executes exactly once.  First conjunct:
the blocks-fetch step throws (the claim's example); second conjunct: the
page-fetch step throws (all counters still zero). -/
theorem notionSyncRun_step_failure (env : SyncEnv) (p : SyncParams) :
    (∀ page msg, env.fetchPage = .ok (some page) → env.fetchBlocks = .error msg →
      p.includeBlocks = true →
      (notionSyncRun env p).result.success = false ∧
      (notionSyncRun env p).result.error = some msg ∧
      (notionSyncRun env p).result.blocksProcessed = 0 ∧
      (notionSyncRun env p).result.propertiesProcessed =
        (if p.includeProperties then page.properties.length else 0) ∧
      (notionSyncRun env p).result.vectorsCreated =
        titleContribution page +
          (if p.includeProperties then (propsToVectorize page.properties).length else 0) ∧
      (notionSyncRun env p).errorRecords = 1 ∧
      (notionSyncRun env p).completedRecords = 0) ∧
    (∀ msg, env.fetchPage = .error msg →
      (notionSyncRun env p).result =
        { success := false, pageId := p.pageId, blocksProcessed := 0,
          propertiesProcessed := 0, vectorsCreated := 0, error := some msg } ∧
      (notionSyncRun env p).errorRecords = 1 ∧
      (notionSyncRun env p).completedRecords = 0) := by
  constructor
  · intro page msg hp hb hib
    by_cases hprop : p.includeProperties <;>
      simp [notionSyncRun, hp, hb, hib, hprop, syncFail]
  · intro msg hp
    simp [notionSyncRun, hp, syncFail]

/-- Witness for C6: blocks fetch throwing "fetch failed" on the sample
page. -/
theorem notionSyncRun_step_failure_witness :
    (notionSyncRun ⟨.ok (some samplePage), .error "fetch failed"⟩
        ⟨"page-1", true, true, none⟩).result.success = false ∧
      (notionSyncRun ⟨.ok (some samplePage), .error "fetch failed"⟩
          ⟨"page-1", true, true, none⟩).result.error = some "fetch failed" ∧
      (notionSyncRun ⟨.ok (some samplePage), .error "fetch failed"⟩
          ⟨"page-1", true, true, none⟩).result.blocksProcessed = 0 ∧
      (notionSyncRun ⟨.ok (some samplePage), .error "fetch failed"⟩
          ⟨"page-1", true, true, none⟩).result.propertiesProcessed =
        (if (true : Bool) then samplePage.properties.length else 0) ∧
      (notionSyncRun ⟨.ok (some samplePage), .error "fetch failed"⟩
          ⟨"page-1", true, true, none⟩).result.vectorsCreated =
        titleContribution samplePage +
          (if (true : Bool) then (propsToVectorize samplePage.properties).length else 0) ∧
      (notionSyncRun ⟨.ok (some samplePage), .error "fetch failed"⟩
          ⟨"page-1", true, true, none⟩).errorRecords = 1 ∧
      (notionSyncRun ⟨.ok (some samplePage), .error "fetch failed"⟩
          ⟨"page-1", true, true, none⟩).completedRecords = 0 :=
  (notionSyncRun_step_failure ⟨.ok (some samplePage), .error "fetch failed"⟩
    ⟨"page-1", true, true, none⟩).1 samplePage "fetch failed" rfl rfl rfl

/-- C7: on a page with no title property, or an empty one, a run with
`includeBlocks = false` and `includeProperties = false` succeeds with all
three counters zero, records no relation, writes one completed job row and
no failed one. -/
theorem notionSyncRun_no_title (env : SyncEnv) (p : SyncParams) (page : NPage)
    (hp : env.fetchPage = .ok (some page))
    (hb : p.includeBlocks = false) (hpr : p.includeProperties = false)
    (ht : ∀ rts, findTitleProp page.properties = some rts → joinPlainText rts = "") :
    notionSyncRun env p =
      { result := { success := true, pageId := p.pageId, blocksProcessed := 0,
                    propertiesProcessed := 0, vectorsCreated := 0, error := none },
        relationKinds := [], errorRecords := 0, completedRecords := 1 } := by
  have ht0 : titleContribution page = 0 := by
    unfold titleContribution
    split
    · rfl
    · next rts heq => simp [ht rts heq]
  simp [notionSyncRun, hp, hb, hpr, ht0]

/-- Witness for C7 on the sample page without a title property. -/
theorem notionSyncRun_no_title_witness :
    notionSyncRun ⟨.ok (some samplePageNoTitle), .ok []⟩ ⟨"page-2", false, false, none⟩ =
      { result := { success := true, pageId := "page-2", blocksProcessed := 0,
                    propertiesProcessed := 0, vectorsCreated := 0, error := none },
        relationKinds := [], errorRecords := 0, completedRecords := 1 } :=
  notionSyncRun_no_title ⟨.ok (some samplePageNoTitle), .ok []⟩
    ⟨"page-2", false, false, none⟩ samplePageNoTitle rfl rfl rfl (by decide)

/-- C8: with the properties stage enabled and the run succeeding,
`propertiesProcessed` counts all properties of the page while the stage
adds one vector and records one `property` relation per text-bearing
property with non-empty extracted text (`propsToVectorize`). -/
theorem notionSyncRun_properties_stage (env : SyncEnv) (p : SyncParams) (page : NPage)
    (blocks : List NBlock) (hp : env.fetchPage = .ok (some page))
    (hbl : env.fetchBlocks = .ok blocks) (hpr : p.includeProperties = true) :
    (notionSyncRun env p).result.success = true ∧
    (notionSyncRun env p).result.propertiesProcessed = page.properties.length ∧
    (notionSyncRun env p).relationKinds.count "property" =
      (propsToVectorize page.properties).length ∧
    (notionSyncRun env p).result.vectorsCreated =
      titleContribution page + (propsToVectorize page.properties).length +
        (if p.includeBlocks then (blocksToVectorize blocks).length else 0) := by
  by_cases hib : p.includeBlocks <;>
    by_cases htv : titleContribution page = 0 <;>
      simp [notionSyncRun, hp, hbl, hpr, hib, htv, List.count_append,
        List.count_replicate, List.count_cons, Nat.add_comm]

/-- Witness for C8 on the sample page and sample blocks: 3 properties
processed, 2 of them embedded. -/
theorem notionSyncRun_properties_stage_witness :
    (notionSyncRun ⟨.ok (some samplePage), .ok sampleBlocks⟩
        ⟨"page-1", true, true, none⟩).result.success = true ∧
      (notionSyncRun ⟨.ok (some samplePage), .ok sampleBlocks⟩
          ⟨"page-1", true, true, none⟩).result.propertiesProcessed =
        samplePage.properties.length ∧
      (notionSyncRun ⟨.ok (some samplePage), .ok sampleBlocks⟩
          ⟨"page-1", true, true, none⟩).relationKinds.count "property" =
        (propsToVectorize samplePage.properties).length ∧
      (notionSyncRun ⟨.ok (some samplePage), .ok sampleBlocks⟩
          ⟨"page-1", true, true, none⟩).result.vectorsCreated =
        titleContribution samplePage + (propsToVectorize samplePage.properties).length +
          (if (true : Bool) then (blocksToVectorize sampleBlocks).length else 0) :=
  notionSyncRun_properties_stage ⟨.ok (some samplePage), .ok sampleBlocks⟩
    ⟨"page-1", true, true, none⟩ samplePage sampleBlocks rfl rfl rfl

/-- C9: with the blocks stage enabled and the run succeeding,
`blocksProcessed` counts all fetched blocks while the stage embeds exactly
the blocks whose extracted plain text is longer than 10 characters
(`blocksToVectorize`), recording one `block` relation per embedded block;
the final conjunct shows the stage's predicate is exactly the length
threshold (empty text never passes it). -/
theorem notionSyncRun_blocks_stage (env : SyncEnv) (p : SyncParams) (page : NPage)
    (blocks : List NBlock) (hp : env.fetchPage = .ok (some page))
    (hbl : env.fetchBlocks = .ok blocks) (hib : p.includeBlocks = true) :
    ((notionSyncRun env p).result.success = true ∧
      (notionSyncRun env p).result.blocksProcessed = blocks.length ∧
      (notionSyncRun env p).relationKinds.count "block" =
        (blocksToVectorize blocks).length ∧
      (notionSyncRun env p).result.vectorsCreated =
        titleContribution page +
          (if p.includeProperties then (propsToVectorize page.properties).length else 0) +
          (blocksToVectorize blocks).length) ∧
    (∀ b : NBlock, blockEmbeddable b = true ↔ 10 < (extractPlainTextFromBlock b).length) := by
  constructor
  · by_cases hprop : p.includeProperties <;>
      by_cases htv : titleContribution page = 0 <;>
        simp [notionSyncRun, hp, hbl, hib, hprop, htv, List.count_append,
          List.count_replicate, List.count_cons]
  · intro b
    simp only [blockEmbeddable, Bool.and_eq_true, decide_eq_true_eq,
      Bool.not_eq_eq_eq_not, Bool.not_true, decide_eq_false_iff_not]
    constructor
    · exact fun h => h.2
    · intro h
      refine ⟨fun he => ?_, h⟩
      rw [he] at h
      simp at h

/-- Witness for C9 on the sample data: 3 blocks processed, 1 embedded. -/
theorem notionSyncRun_blocks_stage_witness :
    ((notionSyncRun ⟨.ok (some samplePage), .ok sampleBlocks⟩
          ⟨"page-1", true, true, none⟩).result.success = true ∧
      (notionSyncRun ⟨.ok (some samplePage), .ok sampleBlocks⟩
          ⟨"page-1", true, true, none⟩).result.blocksProcessed = sampleBlocks.length ∧
      (notionSyncRun ⟨.ok (some samplePage), .ok sampleBlocks⟩
          ⟨"page-1", true, true, none⟩).relationKinds.count "block" =
        (blocksToVectorize sampleBlocks).length ∧
      (notionSyncRun ⟨.ok (some samplePage), .ok sampleBlocks⟩
          ⟨"page-1", true, true, none⟩).result.vectorsCreated =
        titleContribution samplePage +
          (if (true : Bool) then (propsToVectorize samplePage.properties).length else 0) +
          (blocksToVectorize sampleBlocks).length) ∧
    (∀ b : NBlock, blockEmbeddable b = true ↔ 10 < (extractPlainTextFromBlock b).length) :=
  notionSyncRun_blocks_stage ⟨.ok (some samplePage), .ok sampleBlocks⟩
    ⟨"page-1", true, true, none⟩ samplePage sampleBlocks rfl rfl rfl

/-! ## Claim C10: the search handler -/

/-- C10: a body with neither vector nor text (and a valid or omitted topK)
gets a 400 "Either vector or text must be provided" and the index is never
queried; a vector with omitted topK is queried with topK 10; a topK outside
[1, 100] is rejected with a 400 validation error before any query. -/
theorem searchVectors_validation (env : SearchEnv) (body : SearchBody) :
    (body.vector = none → body.text = none →
      (body.topK = none ∨ ∃ k, body.topK = some k ∧ 1 ≤ k ∧ k ≤ 100) →
      searchVectors env body = (.badRequest "Either vector or text must be provided", [])) ∧
    (∀ v, body.vector = some v → body.topK = none →
      searchVectors env body =
        (.ok, [{ queryVector := v, topK := 10, filter := body.filter }])) ∧
    (∀ k, body.topK = some k → ¬ (1 ≤ k ∧ k ≤ 100) →
      searchVectors env body =
        (.badRequest "Invalid request: Number must be between 1 and 100", [])) := by
  refine ⟨?_, ?_, ?_⟩
  · intro hv ht hk
    rcases hk with hk | ⟨k, hk, hvalid⟩
    · simp [searchVectors, parseTopK, hv, ht, hk]
    · simp [searchVectors, parseTopK, hv, ht, hk, hvalid]
  · intro v hv hk
    simp [searchVectors, parseTopK, hv, hk]
  · intro k hk hinvalid
    simp [searchVectors, parseTopK, hk, hinvalid]

/-- Witness for C10: the three cases at concrete bodies (empty body; vector
`[1, 2]` with omitted topK; topK 500). -/
theorem searchVectors_validation_witness :
    (searchVectors ⟨fun _ => none⟩ ⟨none, none, none, none⟩ =
        (.badRequest "Either vector or text must be provided", [])) ∧
      (searchVectors ⟨fun _ => none⟩ ⟨some [1, 2], none, none, none⟩ =
        (.ok, [⟨[1, 2], 10, none⟩])) ∧
      (searchVectors ⟨fun _ => none⟩ ⟨none, none, some 500, none⟩ =
        (.badRequest "Invalid request: Number must be between 1 and 100", [])) :=
  ⟨(searchVectors_validation ⟨fun _ => none⟩ ⟨none, none, none, none⟩).1 rfl rfl (Or.inl rfl),
   (searchVectors_validation ⟨fun _ => none⟩ ⟨some [1, 2], none, none, none⟩).2.1
     [1, 2] rfl rfl,
   (searchVectors_validation ⟨fun _ => none⟩ ⟨none, none, some 500, none⟩).2.2
     500 rfl (by omega)⟩

end VectorDb
